import Mathlib

/-!
Verification of the mocktail mock-API engine (github.com/Vooblin/mocktail).

This file gives a shallow embedding of the two core components:

- the deterministic generator (internal/generator/generator.go): the
  functions NewGenerator, GenerateFromSchema, generateString,
  generateInteger, generateNumber, generateBoolean, generateArray,
  generateObject and GenerateResponse;
- the mock dispatcher (internal/mock/server.go): handlePath,
  generateMockResponse, getStatusCode and getStatusCodeString.

External collaborators are modelled by their contracts:

- Go's math/rand seeded source is modelled as a deterministic stream of
  natural-number draws keyed by the seed (structure Rng).  Each call of
  Intn, Int63n, Uint32 or Float64 consumes exactly one element of the
  stream and reduces it into the contractual range (Intn n and Int63n n
  land in [0, n), Uint32 in [0, 2^32), Float64 in [0, 1)).  The concrete
  stream function goRandStream is an arbitrary deterministic model; no
  theorem below depends on which values it produces, only on the draws
  being a deterministic function of the seed and call position.
- wall-clock time (time.Now) is modelled as an explicit parameter now,
  a Unix timestamp in seconds, threaded through the generation
  functions; time.Format is modelled for the UTC zone.
- openapi3.Schema is modelled by the inductive Schema below, keeping
  exactly the fields the generator reads: Type, Format, Enum, Min, Max,
  MinItems, MaxItems, Items and Properties.  Go float64 constraint
  bounds are modelled as exact rationals.  The two levels of pointer
  indirection of Items (Items == nil or Items.Value == nil, which the
  code treats identically) collapse into SchemaRef.nil.
- Properties is a Go map; the embedding keeps it as a sequence of
  name/ref pairs, whose order stands for the iteration order the Go
  runtime happens to use for the map, which Go does not fix.
-/

/-- JSON-like runtime values produced by the generator
(Go interface values: string, int64, float64, bool, slice, map). -/
inductive Value where
  | str (s : String)
  | int (n : Int)
  | num (q : ℚ)
  | bool (b : Bool)
  | arr (xs : List Value)
  | obj (fields : List (String × Value))

/-- Go interface values appearing in a schema's Enum list. -/
inductive GoVal where
  | str (s : String)
  | int (n : Int)
  | num (q : ℚ)
  | bool (b : Bool)
  deriving DecidableEq, Repr

mutual

def Value.decEq : (a b : Value) → Decidable (a = b)
  | .str a, .str b =>
    if h : a = b then .isTrue (h ▸ rfl) else .isFalse (fun hh => h (Value.str.inj hh))
  | .int a, .int b =>
    if h : a = b then .isTrue (h ▸ rfl) else .isFalse (fun hh => h (Value.int.inj hh))
  | .num a, .num b =>
    if h : a = b then .isTrue (h ▸ rfl) else .isFalse (fun hh => h (Value.num.inj hh))
  | .bool a, .bool b =>
    if h : a = b then .isTrue (h ▸ rfl) else .isFalse (fun hh => h (Value.bool.inj hh))
  | .arr a, .arr b =>
    match Value.decEqList a b with
    | .isTrue h => .isTrue (h ▸ rfl)
    | .isFalse h => .isFalse (fun hh => h (Value.arr.inj hh))
  | .obj a, .obj b =>
    match Value.decEqFields a b with
    | .isTrue h => .isTrue (h ▸ rfl)
    | .isFalse h => .isFalse (fun hh => h (Value.obj.inj hh))
  | .str _, .int _ => .isFalse (fun h => Value.noConfusion h)
  | .str _, .num _ => .isFalse (fun h => Value.noConfusion h)
  | .str _, .bool _ => .isFalse (fun h => Value.noConfusion h)
  | .str _, .arr _ => .isFalse (fun h => Value.noConfusion h)
  | .str _, .obj _ => .isFalse (fun h => Value.noConfusion h)
  | .int _, .str _ => .isFalse (fun h => Value.noConfusion h)
  | .int _, .num _ => .isFalse (fun h => Value.noConfusion h)
  | .int _, .bool _ => .isFalse (fun h => Value.noConfusion h)
  | .int _, .arr _ => .isFalse (fun h => Value.noConfusion h)
  | .int _, .obj _ => .isFalse (fun h => Value.noConfusion h)
  | .num _, .str _ => .isFalse (fun h => Value.noConfusion h)
  | .num _, .int _ => .isFalse (fun h => Value.noConfusion h)
  | .num _, .bool _ => .isFalse (fun h => Value.noConfusion h)
  | .num _, .arr _ => .isFalse (fun h => Value.noConfusion h)
  | .num _, .obj _ => .isFalse (fun h => Value.noConfusion h)
  | .bool _, .str _ => .isFalse (fun h => Value.noConfusion h)
  | .bool _, .int _ => .isFalse (fun h => Value.noConfusion h)
  | .bool _, .num _ => .isFalse (fun h => Value.noConfusion h)
  | .bool _, .arr _ => .isFalse (fun h => Value.noConfusion h)
  | .bool _, .obj _ => .isFalse (fun h => Value.noConfusion h)
  | .arr _, .str _ => .isFalse (fun h => Value.noConfusion h)
  | .arr _, .int _ => .isFalse (fun h => Value.noConfusion h)
  | .arr _, .num _ => .isFalse (fun h => Value.noConfusion h)
  | .arr _, .bool _ => .isFalse (fun h => Value.noConfusion h)
  | .arr _, .obj _ => .isFalse (fun h => Value.noConfusion h)
  | .obj _, .str _ => .isFalse (fun h => Value.noConfusion h)
  | .obj _, .int _ => .isFalse (fun h => Value.noConfusion h)
  | .obj _, .num _ => .isFalse (fun h => Value.noConfusion h)
  | .obj _, .bool _ => .isFalse (fun h => Value.noConfusion h)
  | .obj _, .arr _ => .isFalse (fun h => Value.noConfusion h)

def Value.decEqList : (a b : List Value) → Decidable (a = b)
  | [], [] => .isTrue rfl
  | [], _ :: _ => .isFalse (fun h => List.noConfusion h)
  | _ :: _, [] => .isFalse (fun h => List.noConfusion h)
  | x :: xs, y :: ys =>
    match Value.decEq x y with
    | .isFalse h => .isFalse (fun hh => h (List.cons.inj hh).1)
    | .isTrue h1 =>
      match Value.decEqList xs ys with
      | .isTrue h2 => .isTrue (h1 ▸ h2 ▸ rfl)
      | .isFalse h => .isFalse (fun hh => h (List.cons.inj hh).2)

def Value.decEqFields : (a b : List (String × Value)) → Decidable (a = b)
  | [], [] => .isTrue rfl
  | [], _ :: _ => .isFalse (fun h => List.noConfusion h)
  | _ :: _, [] => .isFalse (fun h => List.noConfusion h)
  | (k1, v1) :: xs, (k2, v2) :: ys =>
    if hk : k1 = k2 then
      match Value.decEq v1 v2 with
      | .isFalse h => .isFalse (fun hh => h (congrArg Prod.snd (List.cons.inj hh).1))
      | .isTrue h1 =>
        match Value.decEqFields xs ys with
        | .isTrue h2 => .isTrue (hk ▸ h1 ▸ h2 ▸ rfl)
        | .isFalse h => .isFalse (fun hh => h (List.cons.inj hh).2)
    else .isFalse (fun hh => hk (congrArg Prod.fst (List.cons.inj hh).1))

end

instance : DecidableEq Value := Value.decEq

/-- Model of a seeded math/rand source: a deterministic stream of draws
together with the position of the next draw. -/
structure Rng where
  stream : Nat → Nat
  idx : Nat

/-- Consume one raw draw from the stream. -/
def Rng.next (r : Rng) : Nat × Rng :=
  (r.stream r.idx, { r with idx := r.idx + 1 })

/-- Model of rand.Intn: a draw reduced into the range [0, n). -/
def Rng.intn (r : Rng) (n : Nat) : Nat × Rng :=
  let (d, r1) := r.next
  (d % n, r1)

/-- Model of rand.Int63n: a draw reduced into the range [0, n). -/
def Rng.int63n (r : Rng) (n : Nat) : Nat × Rng :=
  let (d, r1) := r.next
  (d % n, r1)

/-- Model of rand.Uint32: a draw reduced into the range [0, 2^32). -/
def Rng.uint32 (r : Rng) : Nat × Rng :=
  let (d, r1) := r.next
  (d % 4294967296, r1)

/-- Model of rand.Float64: a draw reduced into a rational in [0, 1). -/
def Rng.float64 (r : Rng) : ℚ × Rng :=
  let (d, r1) := r.next
  (((d % 9007199254740992 : Nat) : ℚ) / 9007199254740992, r1)

/-- Concrete deterministic model of the stream produced by
rand.New(rand.NewSource(seed)); the theorems below use only that it is a
pure function of the seed. -/
def goRandStream (seed : Int) : Nat → Nat :=
  fun i => (seed.natAbs * 6364136223846793005 + i * 1442695040888963407) % 18446744073709551616

/-- NewGenerator from generator.go: a generator owning a source seeded
with the given 64-bit seed, positioned at the first draw. -/
def NewGenerator (seed : Int) : Rng :=
  { stream := goRandStream seed, idx := 0 }

/-- Civil calendar date (year, month, day) for a count of days since
1970-01-01; models the Gregorian calendar used by Go's time package. -/
def civilFromDays (z : Nat) : Nat × Nat × Nat :=
  let z2 := z + 719468
  let era := z2 / 146097
  let doe := z2 % 146097
  let yoe := (doe - doe / 1460 + doe / 36524 - doe / 146096) / 365
  let y := yoe + era * 400
  let doy := doe - (365 * yoe + yoe / 4 - yoe / 100)
  let mp := (5 * doy + 2) / 153
  let d := doy - (153 * mp + 2) / 5 + 1
  let m := if mp < 10 then mp + 3 else mp - 9
  (if m ≤ 2 then y + 1 else y, m, d)

def pad2 (n : Nat) : String :=
  if n < 10 then "0" ++ toString n else toString n

def pad4 (n : Nat) : String :=
  if n < 10 then "000" ++ toString n
  else if n < 100 then "00" ++ toString n
  else if n < 1000 then "0" ++ toString n
  else toString n

/-- Model of t.Format(time.RFC3339) for a Unix timestamp t in the UTC
zone. -/
def formatRFC3339 (t : Nat) : String :=
  let (y, m, d) := civilFromDays (t / 86400)
  let secs := t % 86400
  pad4 y ++ "-" ++ pad2 m ++ "-" ++ pad2 d ++ "T" ++
    pad2 (secs / 3600) ++ ":" ++ pad2 (secs % 3600 / 60) ++ ":" ++ pad2 (secs % 60) ++ "Z"

/-- Model of t.Format("2006-01-02") for a Unix timestamp t. -/
def formatDate (t : Nat) : String :=
  let (y, m, d) := civilFromDays (t / 86400)
  pad4 y ++ "-" ++ pad2 m ++ "-" ++ pad2 d

/-- Lowercase hexadecimal digit character for a value below 16. -/
def hexDigit (n : Nat) : Char :=
  if n < 10 then Char.ofNat (48 + n) else Char.ofNat (87 + n)

/-- Fixed-width lowercase hexadecimal rendering, as fmt's %0<w>x verb
produces for values that fit in the width. -/
def toHexPad (width n : Nat) : String :=
  String.mk (((List.range width).reverse).map (fun i => hexDigit (n / 16 ^ i % 16)))

/-- Format dispatch of generateString (generator.go lines 65-86),
reached when the enum branch does not return. -/
def generateStringFormat (format : String) (now : Nat) (r : Rng) : String × Rng :=
  match format with
  | "date-time" =>
    let (d, r1) := r.intn (365 * 24)
    (formatRFC3339 (now - d * 3600), r1)
  | "date" =>
    let (d, r1) := r.intn 365
    (formatDate (now - d * 86400), r1)
  | "email" =>
    let (d, r1) := r.intn 1000
    ("user" ++ toString d ++ "@example.com", r1)
  | "uuid" =>
    let (u1, r1) := r.uint32
    let (u2, r2) := r1.uint32
    let (u3, r3) := r2.uint32
    let (u4, r4) := r3.uint32
    let (u5, r5) := r4.uint32
    let (u6, r6) := r5.uint32
    (toHexPad 8 u1 ++ "-" ++ toHexPad 4 (u2 % 65536) ++ "-" ++
      toHexPad 4 (Nat.lor (u3 % 65536) 16384) ++ "-" ++
      toHexPad 4 (Nat.lor (u4 % 65536) 32768) ++ "-" ++
      toHexPad 12 (Nat.lor (u5 * 65536) (u6 / 65536)), r6)
  | "uri" =>
    let (d, r1) := r.intn 1000
    ("https://example.com/resource/" ++ toString d, r1)
  | _ =>
    let words := ["alpha", "beta", "gamma", "delta", "epsilon", "zeta", "theta"]
    let (d, r1) := r.intn words.length
    (words.getD d "", r1)

/-- generateString (generator.go lines 56-87).  With a non-empty Enum it
draws an index with Intn(len(Enum)); if the drawn member passes the
string type assertion it is returned, otherwise control falls through to
the format switch.  The getD default is never read since the drawn index
is below the length. -/
def generateString (format : String) (enum : List GoVal) (now : Nat) (r : Rng) : String × Rng :=
  if 0 < enum.length then
    let (idx, r1) := r.intn enum.length
    match enum.getD idx (GoVal.str "") with
    | GoVal.str s => (s, r1)
    | _ => generateStringFormat format now r1
  else generateStringFormat format now r

/-- Model of Go's int64(f) conversion on a float64 bound, which
truncates toward zero; bounds are modelled as exact rationals. -/
def goInt64 (q : ℚ) : Int :=
  Int.tdiv q.num (Int.ofNat q.den)

/-- generateInteger (generator.go lines 90-106). -/
def generateInteger (min max : Option ℚ) (r : Rng) : Int × Rng :=
  let lo : Int := match min with | some q => goInt64 q | none => 0
  let hi : Int := match max with | some q => goInt64 q | none => 100
  if hi ≤ lo then (lo, r)
  else
    let (d, r1) := r.int63n (hi - lo + 1).toNat
    (lo + Int.ofNat d, r1)

/-- generateNumber (generator.go lines 109-125). -/
def generateNumber (min max : Option ℚ) (r : Rng) : ℚ × Rng :=
  let lo : ℚ := match min with | some q => q | none => 0
  let hi : ℚ := match max with | some q => q | none => 100
  if hi ≤ lo then (lo, r)
  else
    let (f, r1) := r.float64
    (lo + f * (hi - lo), r1)

/-- generateBoolean (generator.go lines 128-130). -/
def generateBoolean (r : Rng) : Bool × Rng :=
  let (d, r1) := r.intn 2
  (d == 1, r1)

mutual

/-- Schema model keeping exactly the openapi3.Schema fields the
generator reads: Type, Format, Enum, Min, Max, MinItems, MaxItems,
Items and Properties. -/
inductive Schema where
  | mk (type : Option (List String)) (format : String) (enum : List GoVal)
       (min max : Option ℚ) (minItems : Nat) (maxItems : Option Nat)
       (items : SchemaRef) (properties : SchemaProps)

/-- Model of a *openapi3.SchemaRef position: nil covers both a nil ref
pointer and a ref with nil Value, which the generator treats alike. -/
inductive SchemaRef where
  | nil
  | ref (s : Schema)

/-- The Properties map presented in the iteration order the Go runtime
happens to use; Go does not fix that order, so one and the same map
value is modelled by every ordering of this sequence. -/
inductive SchemaProps where
  | nil
  | cons (name : String) (s : SchemaRef) (rest : SchemaProps)

end

/-- Association-list reading of a SchemaProps sequence, for stating
which Go map the sequence presents. -/
def SchemaProps.toList : SchemaProps → List (String × Option Schema)
  | SchemaProps.nil => []
  | SchemaProps.cons name SchemaRef.nil rest => (name, none) :: SchemaProps.toList rest
  | SchemaProps.cons name (SchemaRef.ref s) rest => (name, some s) :: SchemaProps.toList rest

/-- Array length lower bound of generateArray (generator.go lines
139-143): the default 2, replaced by MinItems when positive. -/
def arrayMinItems (mnI : Nat) : Nat :=
  if 0 < mnI then mnI else 2

/-- Array length upper bound of generateArray (generator.go lines
140-147): the default 5, replaced by MaxItems when present and
positive. -/
def arrayMaxItems (mxI : Option Nat) : Nat :=
  match mxI with
  | some m => if 0 < m then m else 5
  | none => 5

/-- Wrap generated object fields into a Value, passing errors through
(the return of generateObject's result map as an interface value). -/
def objWrap (e : Except String (List (String × Value) × Rng)) : Except String (Value × Rng) :=
  match e with
  | Except.ok (fs, r) => Except.ok (Value.obj fs, r)
  | Except.error msg => Except.error msg

/-- Sequential element generation of generateArray's loop (generator.go
lines 154-161), one run of the item generator per element; the first
failing element aborts with a wrapped error. -/
def generateArrayItems (genItem : Rng → Except String (Value × Rng)) :
    Nat → Rng → Except String (List Value × Rng) := fun n r =>
  match n with
  | 0 => Except.ok ([], r)
  | k + 1 =>
    match genItem r with
    | Except.error e => Except.error ("failed to generate array item: " ++ e)
    | Except.ok (v, r1) =>
      match generateArrayItems genItem k r1 with
      | Except.error e => Except.error e
      | Except.ok (vs, r2) => Except.ok (v :: vs, r2)

mutual

/-- GenerateFromSchema (generator.go lines 24-53) on a non-nil schema:
a missing or empty Type defaults to the object case; otherwise the
first type tag is dispatched; an unknown tag is an error.  The array
case is generateArray (lines 133-164): no item schema means an
immediate empty slice; otherwise the length bounds default to 2 and 5,
a constraint only replaces a default when positive, the length draw
happens only when maxItems exceeds minItems, and the items are
generated sequentially. -/
def generateFromSchemaS : Schema → Nat → Rng → Except String (Value × Rng)
  | Schema.mk ty fmt enum mn mx mnI mxI items props, now, r =>
    match ty with
    | none => objWrap (generateObjectProps props now r)
    | some [] => objWrap (generateObjectProps props now r)
    | some (t :: _) =>
      match t with
      | "string" =>
        let (s, r1) := generateString fmt enum now r
        Except.ok (Value.str s, r1)
      | "integer" =>
        let (n, r1) := generateInteger mn mx r
        Except.ok (Value.int n, r1)
      | "number" =>
        let (q, r1) := generateNumber mn mx r
        Except.ok (Value.num q, r1)
      | "boolean" =>
        let (b, r1) := generateBoolean r
        Except.ok (Value.bool b, r1)
      | "array" =>
        match items with
        | SchemaRef.nil => Except.ok (Value.arr [], r)
        | SchemaRef.ref item =>
          let lo := arrayMinItems mnI
          let hi := arrayMaxItems mxI
          let (len, r1) :=
            if lo < hi then
              let (d, r2) := r.intn (hi - lo + 1)
              (lo + d, r2)
            else (lo, r)
          match generateArrayItems (fun r2 => generateFromSchemaS item now r2) len r1 with
          | Except.error e => Except.error e
          | Except.ok (vs, r2) => Except.ok (Value.arr vs, r2)
      | "object" => objWrap (generateObjectProps props now r)
      | other => Except.error ("unsupported schema type: " ++ other)

/-- Property loop of generateObject (generator.go lines 174-184) over
the iteration order the runtime presents: a nil property schema is
skipped, a failing property aborts with a wrapped error. -/
def generateObjectProps :
    SchemaProps → Nat → Rng → Except String (List (String × Value) × Rng)
  | SchemaProps.nil, _, r => Except.ok ([], r)
  | SchemaProps.cons _ SchemaRef.nil rest, now, r => generateObjectProps rest now r
  | SchemaProps.cons name (SchemaRef.ref ps) rest, now, r =>
    match generateFromSchemaS ps now r with
    | Except.error e => Except.error ("failed to generate property " ++ name ++ ": " ++ e)
    | Except.ok (v, r1) =>
      match generateObjectProps rest now r1 with
      | Except.error e => Except.error e
      | Except.ok (fs, r2) => Except.ok ((name, v) :: fs, r2)

end

/-- GenerateFromSchema's nil-pointer guard (generator.go lines 25-27). -/
def GenerateFromSchema (schema : Option Schema) (now : Nat) (r : Rng) :
    Except String (Value × Rng) :=
  match schema with
  | none => Except.error "schema is nil"
  | some s => generateFromSchemaS s now r

mutual

/-- Supported-type predicate: true exactly when every type tag reachable
during generation is one the switch in GenerateFromSchema handles (a
missing or empty tag counting as object). -/
def wellTyped : Schema → Bool
  | Schema.mk ty _ _ _ _ _ _ items props =>
    match ty with
    | none => wellTypedProps props
    | some [] => wellTypedProps props
    | some (t :: _) =>
      match t with
      | "string" => true
      | "integer" => true
      | "number" => true
      | "boolean" => true
      | "array" =>
        match items with
        | SchemaRef.nil => true
        | SchemaRef.ref item => wellTyped item
      | "object" => wellTypedProps props
      | _ => false

def wellTypedProps : SchemaProps → Bool
  | SchemaProps.nil => true
  | SchemaProps.cons _ SchemaRef.nil rest => wellTypedProps rest
  | SchemaProps.cons _ (SchemaRef.ref s) rest => wellTyped s && wellTypedProps rest

end

/-- Declared response of an operation for one status code.  The cases of
GenerateResponse that return an empty map (nil response value, nil
content, no application/json entry, nil schema) collapse into empty;
jsonSchema holds a present application/json schema. -/
inductive RespDef where
  | empty
  | jsonSchema (s : Schema)

/-- Operation model: the declared responses keyed by status-code string
(nil when the operation has no responses). -/
structure Operation where
  responses : Option (List (String × RespDef))

/-- GenerateResponse (generator.go lines 190-212). -/
def GenerateResponse (operation : Option Operation) (statusCode : String) (now : Nat) (r : Rng) :
    Except String (Value × Rng) :=
  match operation with
  | none => Except.error "operation or responses is nil"
  | some op =>
    match op.responses with
    | none => Except.error "operation or responses is nil"
    | some resps =>
      match resps.lookup statusCode with
      | none => Except.error ("no response defined for status code " ++ statusCode)
      | some RespDef.empty => Except.ok (Value.obj [], r)
      | some (RespDef.jsonSchema s) => generateFromSchemaS s now r

/-- Parameter model from internal/parser/parser.go. -/
structure Parameter where
  name : String
  location : String
  required : Bool
  type : String
  deriving DecidableEq

/-- Endpoint model from internal/parser/parser.go. -/
structure Endpoint where
  method : String
  path : String
  summary : String
  description : String
  parameters : List Parameter
  deriving DecidableEq

/-- The raw openapi3 document held in Schema.Raw, reduced to what
generateMockResponse reads: paths mapping to operations by method. -/
structure Doc where
  paths : List (String × List (String × Operation))

/-- getStatusCodeString (server.go lines 183-192): the status-code
string used to look up the operation's declared response. -/
def getStatusCodeString (method : String) : String :=
  match method with
  | "POST" => "201"
  | "DELETE" => "204"
  | _ => "200"

/-- getStatusCode (server.go lines 195-204): the status code written to
the client. -/
def getStatusCode (method : String) : Nat :=
  match method with
  | "POST" => 201
  | "DELETE" => 200
  | _ => 200

/-- Model of strings.Contains(path, "\x7b"): whether the path holds a
brace placeholder character. -/
def containsBrace (s : String) : Bool :=
  s.data.any (fun ch => ch == '\x7b')

/-- Static fallback fixture of generateMockResponse (server.go lines
143-179); the Go switch without a matching case leaves the map empty. -/
def fallbackResponse (method : String) (path : String) (now : Nat) : Value :=
  match method with
  | "GET" =>
    if containsBrace path then
      Value.obj [("id", Value.str "550e8400-e29b-41d4-a716-446655440000"),
                 ("name", Value.str "Mock Resource"),
                 ("createdAt", Value.str (formatRFC3339 now))]
    else
      Value.obj [("data", Value.arr
        [Value.obj [("id", Value.str "550e8400-e29b-41d4-a716-446655440000"),
                    ("name", Value.str "Mock Resource 1"),
                    ("createdAt", Value.str (formatRFC3339 now))],
         Value.obj [("id", Value.str "550e8400-e29b-41d4-a716-446655440001"),
                    ("name", Value.str "Mock Resource 2"),
                    ("createdAt", Value.str (formatRFC3339 (now - 86400)))]]),
        ("total", Value.int 2)]
  | "POST" =>
    Value.obj [("id", Value.str "550e8400-e29b-41d4-a716-446655440000"),
               ("name", Value.str "New Mock Resource"),
               ("createdAt", Value.str (formatRFC3339 now)),
               ("message", Value.str "Resource created successfully")]
  | "PUT" =>
    Value.obj [("id", Value.str "550e8400-e29b-41d4-a716-446655440000"),
               ("name", Value.str "Updated Mock Resource"),
               ("updatedAt", Value.str (formatRFC3339 now)),
               ("message", Value.str "Resource updated successfully")]
  | "PATCH" =>
    Value.obj [("id", Value.str "550e8400-e29b-41d4-a716-446655440000"),
               ("name", Value.str "Updated Mock Resource"),
               ("updatedAt", Value.str (formatRFC3339 now)),
               ("message", Value.str "Resource updated successfully")]
  | "DELETE" =>
    Value.obj [("message", Value.str "Resource deleted successfully")]
  | _ => Value.obj []

/-- generateMockResponse (server.go lines 115-180).  If the raw
document yields an operation for the endpoint and schema-driven
generation under the lookup status code succeeds, the result is used;
a GET on a path without a brace placeholder whose result is a map is
wrapped into the data/total envelope holding the item twice; any miss
or failure falls back to the static fixture. -/
def generateMockResponse (schemaRaw : Option Doc) (endpoint : Endpoint) (now : Nat) (r : Rng) :
    Value :=
  match schemaRaw with
  | some doc =>
    match doc.paths.lookup endpoint.path with
    | some ops =>
      match ops.lookup endpoint.method with
      | some operation =>
        match GenerateResponse (some operation) (getStatusCodeString endpoint.method) now r with
        | Except.ok (response, _) =>
          if !(containsBrace endpoint.path) && endpoint.method == "GET" then
            match response with
            | Value.obj fields =>
              Value.obj [("data", Value.arr [Value.obj fields, Value.obj fields]),
                         ("total", Value.int 2)]
            | _ => response
          else response
        | Except.error _ => fallbackResponse endpoint.method endpoint.path now
      | none => fallbackResponse endpoint.method endpoint.path now
    | none => fallbackResponse endpoint.method endpoint.path now
  | none => fallbackResponse endpoint.method endpoint.path now

/-- Response body: the JSON payload written by json.NewEncoder, or the
plain text written by http.Error. -/
inductive Body where
  | jsonBody (v : Value)
  | textBody (s : String)
  deriving DecidableEq

/-- What handlePath writes back: status code, headers, body. -/
structure HttpResponse where
  status : Nat
  headers : List (String × String)
  body : Body
  deriving DecidableEq

/-- Model of strings.EqualFold restricted to the ASCII method names the
dispatcher compares: character-wise case folding. -/
def asciiEqualFold (a b : String) : Bool :=
  a.data.map Char.toUpper == b.data.map Char.toUpper

/-- The matching loop of handlePath (server.go lines 86-91): the first
endpoint whose method matches the request method case-insensitively. -/
def findEndpoint (reqMethod : String) (endpoints : List Endpoint) : Option Endpoint :=
  endpoints.find? (fun e => asciiEqualFold reqMethod e.method)

/-- handlePath (server.go lines 83-112).  With no matching method the
handler replies through http.Error with status 405, http.Error's fixed
headers and the fixed message; otherwise it writes the generated mock
response as JSON under the method's status code. -/
def handlePath (schemaRaw : Option Doc) (endpoints : List Endpoint) (reqMethod : String)
    (now : Nat) (r : Rng) : HttpResponse :=
  match findEndpoint reqMethod endpoints with
  | none =>
    { status := 405,
      headers := [("Content-Type", "text/plain; charset=utf-8"),
                  ("X-Content-Type-Options", "nosniff")],
      body := Body.textBody "Method not allowed\n" }
  | some ep =>
    { status := getStatusCode ep.method,
      headers := [("Content-Type", "application/json"), ("X-Mocktail-Server", "true")],
      body := Body.jsonBody (generateMockResponse schemaRaw ep now r) }

/-- Success test on a generation result. -/
def isOkE {α : Type} (e : Except String α) : Bool :=
  match e with
  | Except.ok _ => true
  | Except.error _ => false

/-- The generated value of a generation result, when it succeeded. -/
def exValue (e : Except String (Value × Rng)) : Option Value :=
  match e with
  | Except.ok (v, _) => some v
  | Except.error _ => none

/-- Field lookup inside a generated object value, the JSON-map reading
of the result (insensitive to field order). -/
def objLookup (v : Option Value) (key : String) : Option Value :=
  match v with
  | some (Value.obj fs) => fs.lookup key
  | _ => none

/-- Length of a generated array value. -/
def arrLenOf (v : Option Value) : Option Nat :=
  match v with
  | some (Value.arr xs) => some xs.length
  | _ => none

/-- The methods that have an operation on a path. -/
def allowedMethods (endpoints : List Endpoint) : List String :=
  endpoints.map (fun e => e.method)

/-- A concrete stream for witness evaluations: draw i at position i. -/
def rng0 : Rng :=
  { stream := fun i => i, idx := 0 }

/-- Integer schema with no bounds. -/
def intSchema : Schema :=
  Schema.mk (some ["integer"]) "" [] none none 0 none SchemaRef.nil SchemaProps.nil

/-- Plain string schema, no format, no enum. -/
def strSchema : Schema :=
  Schema.mk (some ["string"]) "" [] none none 0 none SchemaRef.nil SchemaProps.nil

/-- Boolean schema. -/
def boolSchema : Schema :=
  Schema.mk (some ["boolean"]) "" [] none none 0 none SchemaRef.nil SchemaProps.nil

/-- Object schema with no properties. -/
def emptyObjSchema : Schema :=
  Schema.mk (some ["object"]) "" [] none none 0 none SchemaRef.nil SchemaProps.nil

/-- Property map holding an integer property a and a string property b,
presented in the iteration order a, then b. -/
def propsAB : SchemaProps :=
  SchemaProps.cons "a" (SchemaRef.ref intSchema)
    (SchemaProps.cons "b" (SchemaRef.ref strSchema) SchemaProps.nil)

/-- The same property map presented in the iteration order b, then a. -/
def propsBA : SchemaProps :=
  SchemaProps.cons "b" (SchemaRef.ref strSchema)
    (SchemaProps.cons "a" (SchemaRef.ref intSchema) SchemaProps.nil)

/-- Object schema whose property map iterates as a, then b. -/
def objSchemaAB : Schema :=
  Schema.mk (some ["object"]) "" [] none none 0 none SchemaRef.nil propsAB

/-- The same object schema as a Go map value, iterating as b, then a. -/
def objSchemaBA : Schema :=
  Schema.mk (some ["object"]) "" [] none none 0 none SchemaRef.nil propsBA

/-- Schema bearing a type tag the generator does not support. -/
def fooSchema : Schema :=
  Schema.mk (some ["foo"]) "" [] none none 0 none SchemaRef.nil SchemaProps.nil

/-- Schema with no type tag whose single property has an unsupported
type tag. -/
def untypedPropsBad : Schema :=
  Schema.mk none "" [] none none 0 none SchemaRef.nil
    (SchemaProps.cons "x" (SchemaRef.ref fooSchema) SchemaProps.nil)

/-- Array schema without an item schema. -/
def arrayNoItemsSchema : Schema :=
  Schema.mk (some ["array"]) "" [] none none 0 none SchemaRef.nil SchemaProps.nil

/-- Array schema with MinItems 5 above MaxItems 3. -/
def degenArraySchema : Schema :=
  Schema.mk (some ["array"]) "" [] none none 5 (some 3) (SchemaRef.ref boolSchema)
    SchemaProps.nil

/-- The error message of a generation result, when it failed. -/
def exError (e : Except String (Value × Rng)) : Option String :=
  match e with
  | Except.ok _ => none
  | Except.error msg => some msg

/-- The string type assertion of the enum branch of generateString. -/
def isStrVal (v : GoVal) : Bool :=
  match v with
  | GoVal.str _ => true
  | _ => false

/-- GET operation on a collection, declaring a 200 application/json
empty-object response. -/
def opGet200 : Operation :=
  { responses := some [("200", RespDef.jsonSchema emptyObjSchema)] }

/-- POST operation declaring a 201 application/json empty-object
response. -/
def opPost201 : Operation :=
  { responses := some [("201", RespDef.jsonSchema emptyObjSchema)] }

/-- GET endpoint on the placeholder-free path /items. -/
def epGetItems : Endpoint :=
  { method := "GET", path := "/items", summary := "", description := "", parameters := [] }

/-- POST endpoint on the placeholder-free path /items. -/
def epPostItems : Endpoint :=
  { method := "POST", path := "/items", summary := "", description := "", parameters := [] }

/-- PUT endpoint on the placeholder-free path /items. -/
def epPutItems : Endpoint :=
  { method := "PUT", path := "/items", summary := "", description := "", parameters := [] }

/-- Document declaring only GET /items. -/
def docGetItems : Doc :=
  { paths := [("/items", [("GET", opGet200)])] }

/-- Document declaring only POST /items. -/
def docPostItems : Doc :=
  { paths := [("/items", [("POST", opPost201)])] }

/-- Claim C3: the status code used to look up the declared schema
response and the status code sent to the client should follow the same
convention for every method; the code disagrees for DELETE, where the
declared-response lookup uses the string 204 while the client receives
200. -/
theorem getStatusCode_delete_mismatch :
    getStatusCodeString "DELETE" = "204" ∧ getStatusCode "DELETE" = 200 ∧
      getStatusCodeString "DELETE" ≠ "200" := by
  refine ⟨rfl, rfl, ?_⟩
  decide

/-- Bound on the uniform draw of generateInteger's non-degenerate
branch. -/
theorem int_mod_range (d : Nat) (lo hi : Int) (h : lo < hi) :
    lo ≤ lo + Int.ofNat (d % (hi - lo + 1).toNat) ∧
      lo + Int.ofNat (d % (hi - lo + 1).toNat) ≤ hi := by
  have h1 : 0 < (hi - lo + 1).toNat := by omega
  have h2 : d % (hi - lo + 1).toNat < (hi - lo + 1).toNat := Nat.mod_lt _ h1
  have h3 : Int.ofNat (d % (hi - lo + 1).toNat) =
      ((d % (hi - lo + 1).toNat : Nat) : Int) := rfl
  rw [h3]
  omega

/-- Claim C5: generateInteger defaults absent bounds to [0, 100]; when
the converted max is at most the converted min it returns min; otherwise
the draw lies in the inclusive range [min, max]. -/
theorem generateInteger_spec (mn mx : Option ℚ) (r : Rng) :
    (mn = none → mx = none →
      0 ≤ (generateInteger mn mx r).1 ∧ (generateInteger mn mx r).1 ≤ 100)
    ∧ (∀ a b, mn = some a → mx = some b → goInt64 b ≤ goInt64 a →
      (generateInteger mn mx r).1 = goInt64 a)
    ∧ (∀ a b, mn = some a → mx = some b → goInt64 a < goInt64 b →
      goInt64 a ≤ (generateInteger mn mx r).1 ∧
        (generateInteger mn mx r).1 ≤ goInt64 b) := by
  refine ⟨?_, ?_, ?_⟩
  · rintro rfl rfl
    simp only [generateInteger, Rng.int63n, Rng.next]
    split
    · omega
    · exact int_mod_range _ 0 100 (by omega)
  · rintro a b rfl rfl hba
    simp only [generateInteger, Rng.int63n, Rng.next]
    split
    · rfl
    · omega
  · rintro a b rfl rfl hab
    simp only [generateInteger, Rng.int63n, Rng.next]
    split
    · omega
    · exact int_mod_range _ _ _ hab

/-- Witness for C5: the degenerate node min = max = 10 always generates
exactly 10. -/
theorem generateInteger_spec_witness :
    (generateInteger (some 10) (some 10) rng0).1 = goInt64 10 ∧ goInt64 10 = 10 :=
  ⟨(generateInteger_spec (some 10) (some 10) rng0).2.1 10 10 rfl rfl (le_refl _), by decide⟩


/-- Claim C1: the determinism contract requires Object properties to be
visited in a fixed order, but generateObject ranges over a Go map, whose
iteration order the runtime does not fix; under one and the same stream
of draws, the same property map presented in its two iteration orders
yields different generated values for property a, so output is not a
function of schema and seed alone. -/
theorem generateObject_order_dependent :
    List.Perm (SchemaProps.toList propsAB) (SchemaProps.toList propsBA)
    ∧ objLookup (exValue (GenerateFromSchema (some objSchemaAB) 0 rng0)) "a"
        ≠ objLookup (exValue (GenerateFromSchema (some objSchemaBA) 0 rng0)) "a" := by
  constructor
  · simp only [propsAB, propsBA, SchemaProps.toList]
    exact List.Perm.swap _ _ _
  · decide

/-- Claim C4 (amended): when a String node declares a non-empty
enumeration all of whose members are strings, the generated value is a
member of the enumeration; the index draw happens before any format
handling.  (A drawn member failing the string type assertion instead
falls through to format handling, see the counterexample.) -/
theorem generateString_enum_closure (format : String) (enum : List GoVal) (now : Nat) (r : Rng)
    (hne : 0 < enum.length) (hstr : enum.all isStrVal = true) :
    GoVal.str (generateString format enum now r).1 ∈ enum := by
  have hlt : r.stream r.idx % enum.length < enum.length := Nat.mod_lt _ hne
  have hget : enum.getD (r.stream r.idx % enum.length) (GoVal.str "") ∈ enum := by
    rw [List.getD_eq_getElem _ _ hlt]
    exact List.getElem_mem _
  have hv := List.all_eq_true.mp hstr _ hget
  simp only [generateString, Rng.intn, Rng.next, if_pos hne]
  rcases hcase : enum.getD (r.stream r.idx % enum.length) (GoVal.str "") with s | n | q | b
  · rw [hcase] at hget
    simpa using hget
  all_goals rw [hcase] at hv; simp [isStrVal] at hv

/-- Witness for C4: an all-string enumeration generates one of its
members. -/
theorem generateString_enum_closure_witness :
    GoVal.str (generateString "" [GoVal.str "dog", GoVal.str "cat"] 0 rng0).1
      ∈ [GoVal.str "dog", GoVal.str "cat"] :=
  generateString_enum_closure "" [GoVal.str "dog", GoVal.str "cat"] 0 rng0
    (by decide) (by decide)

/-- Counterexample for C4 as stated: with the non-empty enumeration
holding only the integer 42, the drawn member fails the string type
assertion, control falls through to format handling, and the generated
word is not a member of the enumeration. -/
theorem generateString_enum_escape :
    (generateString "" [GoVal.int 42] 0 rng0).1 = "beta"
    ∧ GoVal.str (generateString "" [GoVal.int 42] 0 rng0).1 ∉ [GoVal.int 42] := by
  constructor
  · decide
  · decide

/-- The item loop produces exactly as many elements as requested. -/
theorem generateArrayItems_length (genItem : Rng → Except String (Value × Rng)) :
    ∀ (n : Nat) (r : Rng) (vs : List Value) (r2 : Rng),
      generateArrayItems genItem n r = Except.ok (vs, r2) → vs.length = n := by
  intro n
  induction n with
  | zero =>
    intro r vs r2 h
    simp only [generateArrayItems] at h
    cases h
    rfl
  | succ k ih =>
    intro r vs r2 h
    rw [generateArrayItems] at h
    cases hg : genItem r with
    | error e => rw [hg] at h; cases h
    | ok p =>
      obtain ⟨v, r1⟩ := p
      rw [hg] at h
      simp only [] at h
      cases hr : generateArrayItems genItem k r1 with
      | error e => rw [hr] at h; cases h
      | ok q =>
        obtain ⟨vs1, r3⟩ := q
        rw [hr] at h
        cases h
        simp [ih _ _ _ hr]

/-- Claim C6 (amended): an Array node without an item schema generates
an empty sequence at once; with an item schema, the generated length
lies in the inclusive range from arrayMinItems to arrayMaxItems whenever
that range is non-empty (in particular in [2, 5] when no bound is
given), and equals arrayMinItems when MaxItems falls below MinItems. -/
theorem generateArray_spec (fmt : String) (enum : List GoVal) (mn mx : Option ℚ)
    (mnI : Nat) (mxI : Option Nat) (its : SchemaRef) (props : SchemaProps)
    (now : Nat) (r : Rng) :
    (its = SchemaRef.nil →
      generateFromSchemaS (Schema.mk (some ["array"]) fmt enum mn mx mnI mxI its props) now r
        = Except.ok (Value.arr [], r))
    ∧ (∀ item vs r2, its = SchemaRef.ref item →
        generateFromSchemaS (Schema.mk (some ["array"]) fmt enum mn mx mnI mxI its props) now r
          = Except.ok (Value.arr vs, r2) →
        (arrayMinItems mnI ≤ arrayMaxItems mxI →
          arrayMinItems mnI ≤ vs.length ∧ vs.length ≤ arrayMaxItems mxI)
        ∧ (arrayMaxItems mxI < arrayMinItems mnI → vs.length = arrayMinItems mnI)) := by
  constructor
  · rintro rfl
    rfl
  · rintro item vs r2 rfl h
    rw [generateFromSchemaS] at h
    simp only [Rng.intn, Rng.next] at h
    by_cases hlh : arrayMinItems mnI < arrayMaxItems mxI
    · rw [if_pos hlh] at h
      have hk : r.stream r.idx % (arrayMaxItems mxI - arrayMinItems mnI + 1)
          < arrayMaxItems mxI - arrayMinItems mnI + 1 := Nat.mod_lt _ (by omega)
      cases hg : generateArrayItems (fun rr => generateFromSchemaS item now rr)
          (arrayMinItems mnI + r.stream r.idx % (arrayMaxItems mxI - arrayMinItems mnI + 1))
          { r with idx := r.idx + 1 } with
      | error e => rw [hg] at h; cases h
      | ok q =>
        obtain ⟨vs1, r3⟩ := q
        rw [hg] at h
        cases h
        have hlen := generateArrayItems_length _ _ _ _ _ hg
        constructor
        · intro _
          omega
        · intro hcon
          omega
    · rw [if_neg hlh] at h
      cases hg : generateArrayItems (fun rr => generateFromSchemaS item now rr)
          (arrayMinItems mnI) r with
      | error e => rw [hg] at h; cases h
      | ok q =>
        obtain ⟨vs1, r3⟩ := q
        rw [hg] at h
        cases h
        have hlen := generateArrayItems_length _ _ _ _ _ hg
        constructor
        · intro hle
          omega
        · intro _
          omega

/-- Witness for C6: an Array node lacking an item schema generates the
empty sequence. -/
theorem generateArray_spec_witness :
    generateFromSchemaS
        (Schema.mk (some ["array"]) "w" [] none none 0 none SchemaRef.nil SchemaProps.nil)
        0 rng0
      = Except.ok (Value.arr [], rng0) :=
  (generateArray_spec "w" [] none none 0 none SchemaRef.nil SchemaProps.nil 0 rng0).1 rfl

/-- Counterexample for C6 as stated: with MinItems 5 and MaxItems 3 both
given, the generated length is 5, which does not lie in the empty
interval [5, 3]. -/
theorem generateArray_degenerate_bounds :
    arrLenOf (exValue (generateFromSchemaS degenArraySchema 0 rng0)) = some 5
    ∧ ¬ (5 ≤ 3) := by
  constructor
  · decide
  · decide

/-- Wrapping the object fields preserves success. -/
theorem isOkE_objWrap (e : Except String (List (String × Value) × Rng)) :
    isOkE (objWrap e) = isOkE e := by
  cases e with
  | ok p => obtain ⟨fs, r⟩ := p; rfl
  | error msg => rfl

/-- The array length lower bound is always positive, so the item loop
always runs at least once when an item schema is present. -/
theorem arrayMinItems_pos (mnI : Nat) : 0 < arrayMinItems mnI := by
  unfold arrayMinItems
  split <;> omega

/-- The drawn array length is at least the lower bound, hence
positive. -/
theorem arrayLenDraw_pos (mnI : Nat) (mxI : Option Nat) (r : Rng) (d : Nat) (r1 : Rng)
    (h : (if arrayMinItems mnI < arrayMaxItems mxI then
            match r.intn (arrayMaxItems mxI - arrayMinItems mnI + 1) with
            | (d2, r2) => (arrayMinItems mnI + d2, r2)
          else (arrayMinItems mnI, r)) = (d, r1)) :
    0 < d := by
  have hpos := arrayMinItems_pos mnI
  by_cases hlh : arrayMinItems mnI < arrayMaxItems mxI
  · rw [if_pos hlh] at h
    simp only [Rng.intn, Rng.next] at h
    cases h
    omega
  · rw [if_neg hlh] at h
    cases h
    omega

/-- When every run of the item generator has the same success value,
a positive number of loop iterations has that success value too. -/
theorem generateArrayItems_isOk (genItem : Rng → Except String (Value × Rng)) (c : Bool)
    (hgen : ∀ r, isOkE (genItem r) = c) :
    ∀ (n : Nat) (r : Rng), 0 < n → isOkE (generateArrayItems genItem n r) = c := by
  intro n
  induction n with
  | zero => intro r h; omega
  | succ k ih =>
    intro r _
    rw [generateArrayItems]
    cases hg : genItem r with
    | error e =>
      have hc := hgen r
      rw [hg] at hc
      simp only [isOkE] at hc ⊢
      exact hc
    | ok p =>
      obtain ⟨v, r1⟩ := p
      have hc := hgen r
      rw [hg] at hc
      simp only [isOkE] at hc
      simp only []
      rcases Nat.eq_zero_or_pos k with hk | hk
      · subst hk
        simp only [generateArrayItems, isOkE]
        exact hc
      · have hrec := ih r1 hk
        cases hr : generateArrayItems genItem k r1 with
        | error e =>
          rw [hr] at hrec
          simp only [isOkE] at hrec ⊢
          exact hrec
        | ok q =>
          obtain ⟨vs, r2⟩ := q
          rw [hr] at hrec
          simp only [isOkE] at hrec ⊢
          exact hrec

/-- Generation on a non-nil schema succeeds exactly on the supported
type tags: the success of generateFromSchemaS is the wellTyped
predicate, for every time and every random state. -/
theorem generateFromSchemaS_isOk :
    ∀ (s : Schema) (now : Nat) (r : Rng),
      isOkE (generateFromSchemaS s now r) = wellTyped s := by
  apply generateFromSchemaS.induct
    (fun s now r => isOkE (generateFromSchemaS s now r) = wellTyped s)
    (fun props now r => isOkE (generateObjectProps props now r) = wellTypedProps props)
  · intro fmt enum mn mx mnI mxI items props now r ih
    show isOkE (objWrap (generateObjectProps props now r)) = wellTypedProps props
    rw [isOkE_objWrap]
    exact ih
  · intro fmt enum mn mx mnI mxI items props now r ih
    show isOkE (objWrap (generateObjectProps props now r)) = wellTypedProps props
    rw [isOkE_objWrap]
    exact ih
  · intro fmt enum mn mx mnI mxI items props now r tail s r1 hgen
    rw [generateFromSchemaS, hgen]
    rfl
  · intro fmt enum mn mx mnI mxI items props now r tail n r1 hgen
    rw [generateFromSchemaS, hgen]
    rfl
  · intro fmt enum mn mx mnI mxI items props now r tail f r1 hgen
    rw [generateFromSchemaS, hgen]
    rfl
  · intro fmt enum mn mx mnI mxI items props now r tail b r1 hgen
    rw [generateFromSchemaS, hgen]
    rfl
  · intro fmt enum mn mx mnI mxI props now r tail
    rfl
  · intro fmt enum mn mx mnI mxI props now r tail item lo hi d r1 hif e herr ih
    have hd : 0 < d := arrayLenDraw_pos mnI mxI r d r1 hif
    have hloop := generateArrayItems_isOk (fun r2 => generateFromSchemaS item now r2)
      (wellTyped item) ih d r1 hd
    rw [herr] at hloop
    simp only [isOkE] at hloop
    rw [generateFromSchemaS, hif]
    simp only []
    rw [herr]
    simp only [isOkE]
    exact hloop
  · intro fmt enum mn mx mnI mxI props now r tail item lo hi d r1 hif vs r2 hok ih
    have hd : 0 < d := arrayLenDraw_pos mnI mxI r d r1 hif
    have hloop := generateArrayItems_isOk (fun r2 => generateFromSchemaS item now r2)
      (wellTyped item) ih d r1 hd
    rw [hok] at hloop
    simp only [isOkE] at hloop
    rw [generateFromSchemaS, hif]
    simp only []
    rw [hok]
    simp only [isOkE]
    exact hloop
  · intro fmt enum mn mx mnI mxI items props now r tail ih
    show isOkE (objWrap (generateObjectProps props now r)) = wellTypedProps props
    rw [isOkE_objWrap]
    exact ih
  · intro fmt enum mn mx mnI mxI items props now r tail other h1 h2 h3 h4 h5 h6
    simp [generateFromSchemaS, wellTyped, isOkE, h1, h2, h3, h4, h5, h6]
  · intro now r
    rfl
  · intro name rest now r ih
    show isOkE (generateObjectProps rest now r) = wellTypedProps rest
    exact ih
  · intro name ps rest now r e herr ih
    rw [generateObjectProps, herr]
    rw [herr] at ih
    simp only [isOkE] at ih
    show false = (wellTyped ps && wellTypedProps rest)
    rw [← ih]
    rfl
  · intro name ps rest now r v r1 hok e herr ih1 ih2
    rw [generateObjectProps, hok]
    simp only []
    rw [herr]
    rw [hok] at ih1
    rw [herr] at ih2
    simp only [isOkE] at ih1 ih2
    show false = (wellTyped ps && wellTypedProps rest)
    rw [← ih1, ← ih2]
    rfl
  · intro name ps rest now r v r1 hok fs r2 hrest ih1 ih2
    rw [generateObjectProps, hok]
    simp only []
    rw [hrest]
    rw [hok] at ih1
    rw [hrest] at ih2
    simp only [isOkE] at ih1 ih2
    show true = (wellTyped ps && wellTypedProps rest)
    rw [← ih1, ← ih2]
    rfl

/-- The property loop succeeds exactly when the property subtrees are
well typed. -/
theorem generateObjectProps_isOk (props : SchemaProps) (now : Nat) (r : Rng) :
    isOkE (generateObjectProps props now r) = wellTypedProps props := by
  have h := generateFromSchemaS_isOk
    (Schema.mk none "" [] none none 0 none SchemaRef.nil props) now r
  rw [show generateFromSchemaS (Schema.mk none "" [] none none 0 none SchemaRef.nil props) now r
      = objWrap (generateObjectProps props now r) from rfl, isOkE_objWrap] at h
  exact h

/-- Claim C7 (amended): GenerateFromSchema fails exactly when handed a
nil schema or a schema in which some reachable type tag is unsupported;
an Array node lacking an item schema is not among the failures - it
succeeds with an empty sequence (see the counterexample). -/
theorem GenerateFromSchema_ok_iff (schema : Option Schema) (now : Nat) (r : Rng) :
    isOkE (GenerateFromSchema schema now r) = true
      ↔ ∃ s, schema = some s ∧ wellTyped s = true := by
  cases schema with
  | none => simp [GenerateFromSchema, isOkE]
  | some s => simp [GenerateFromSchema, generateFromSchemaS_isOk s now r]

/-- Witness for C7: a plain integer schema generates successfully. -/
theorem GenerateFromSchema_ok_iff_witness :
    isOkE (GenerateFromSchema (some intSchema) 0 rng0) = true :=
  (GenerateFromSchema_ok_iff (some intSchema) 0 rng0).mpr ⟨intSchema, rfl, rfl⟩

/-- Counterexample for C7 as stated: an Array node lacking an item node
does not fail with UnsupportedNodeKind; it succeeds with an empty
sequence. -/
theorem generate_array_without_items_succeeds :
    GenerateFromSchema (some arrayNoItemsSchema) 0 rng0 = Except.ok (Value.arr [], rng0)
    ∧ isOkE (GenerateFromSchema (some arrayNoItemsSchema) 0 rng0) = true :=
  ⟨rfl, rfl⟩

/-- Claim C10 (amended): a schema whose type tag is absent or empty is
dispatched to the object case: the result is exactly the generated
property mapping, and the missing tag itself never produces an
unsupported-type error; generation of such a schema succeeds precisely
when its property subtrees are well typed, so a nested property with an
unsupported tag still propagates an error (see the counterexample). -/
theorem generate_untyped_as_object (fmt : String) (enum : List GoVal) (mn mx : Option ℚ)
    (mnI : Nat) (mxI : Option Nat) (items : SchemaRef) (props : SchemaProps)
    (now : Nat) (r : Rng) :
    generateFromSchemaS (Schema.mk none fmt enum mn mx mnI mxI items props) now r
      = objWrap (generateObjectProps props now r)
    ∧ generateFromSchemaS (Schema.mk (some []) fmt enum mn mx mnI mxI items props) now r
      = objWrap (generateObjectProps props now r)
    ∧ isOkE (generateFromSchemaS (Schema.mk none fmt enum mn mx mnI mxI items props) now r)
      = wellTypedProps props := by
  refine ⟨rfl, rfl, ?_⟩
  rw [generateFromSchemaS_isOk]
  rfl

/-- Witness for C10: a schema with no type tag and no properties is
generated exactly as the empty object mapping. -/
theorem generate_untyped_as_object_witness :
    generateFromSchemaS (Schema.mk none "f" [] none none 0 none SchemaRef.nil SchemaProps.nil)
        0 rng0
      = objWrap (generateObjectProps SchemaProps.nil 0 rng0) :=
  (generate_untyped_as_object "f" [] none none 0 none SchemaRef.nil SchemaProps.nil 0 rng0).1

/-- Counterexample for C10 as stated: a schema with no type tag whose
property bears an unsupported tag does return an unsupported-type
error. -/
theorem generate_untyped_nested_unsupported :
    exValue (GenerateFromSchema (some untypedPropsBad) 0 rng0) = none
    ∧ exError (GenerateFromSchema (some untypedPropsBad) 0 rng0)
        = some "failed to generate property x: unsupported schema type: foo" := by
  constructor
  · decide
  · decide


/-- Claim C2 (amended): when the document yields an operation and
schema-driven generation under the lookup status code succeeds, a GET
on a placeholder-free path whose generated value is an object receives
the data/total envelope holding the item twice; a placeholder path
receives the generated value as-is; and a non-GET request on a
placeholder-free path also receives the generated value as-is, so the
claim's unconditional envelope for placeholder-free paths fails (see
the counterexample). -/
theorem generateMockResponse_shape (doc : Doc) (ep : Endpoint) (now : Nat) (r : Rng)
    (ops : List (String × Operation)) (op : Operation) (v : Value) (r2 : Rng)
    (hpath : doc.paths.lookup ep.path = some ops)
    (hop : ops.lookup ep.method = some op)
    (hgen : GenerateResponse (some op) (getStatusCodeString ep.method) now r
      = Except.ok (v, r2)) :
    (containsBrace ep.path = true → generateMockResponse (some doc) ep now r = v)
    ∧ (containsBrace ep.path = false → ep.method = "GET" →
        ∀ fields, v = Value.obj fields →
        generateMockResponse (some doc) ep now r
          = Value.obj [("data", Value.arr [Value.obj fields, Value.obj fields]),
                       ("total", Value.int 2)])
    ∧ (containsBrace ep.path = false → ep.method ≠ "GET" →
        generateMockResponse (some doc) ep now r = v) := by
  refine ⟨?_, ?_, ?_⟩
  · intro hc
    simp only [generateMockResponse, hpath, hop, hgen]
    simp [hc]
  · intro hc hm fields hv
    subst hv
    simp only [generateMockResponse, hpath, hop, hgen]
    rw [hm]
    simp [hc]
  · intro hc hm
    simp only [generateMockResponse, hpath, hop, hgen]
    have hbeq : (ep.method == "GET") = false := by
      simp [hm]
    simp [hc, hbeq]

/-- Witness for C2: a GET on the placeholder-free path /items whose
declared 200 response generates the empty object yields the data/total
envelope holding that object twice. -/
theorem generateMockResponse_shape_witness :
    generateMockResponse (some docGetItems) epGetItems 0 rng0
      = Value.obj [("data", Value.arr [Value.obj [], Value.obj []]),
                   ("total", Value.int 2)] :=
  (generateMockResponse_shape docGetItems epGetItems 0 rng0
      [("GET", opGet200)] opGet200 (Value.obj []) rng0 rfl rfl rfl).2.1
    (by decide) rfl [] rfl

/-- Counterexample for C2 as stated: a POST dispatched on the
placeholder-free path /items whose declared 201 response generates an
object is returned as-is, with no data or total keys and no
two-element envelope. -/
theorem generateMockResponse_post_no_envelope :
    generateMockResponse (some docPostItems) epPostItems 0 rng0 = Value.obj []
    ∧ containsBrace epPostItems.path = false
    ∧ objLookup (some (generateMockResponse (some docPostItems) epPostItems 0 rng0)) "data"
        = none
    ∧ objLookup (some (generateMockResponse (some docPostItems) epPostItems 0 rng0)) "total"
        = none := by
  refine ⟨?_, ?_, ?_, ?_⟩ <;> decide

/-- The status code written to the client is 201 exactly for POST and
200 for every other method. -/
theorem getStatusCode_eq (m : String) : getStatusCode m = if m = "POST" then 201 else 200 := by
  by_cases h1 : m = "POST"
  · subst h1
    rfl
  · rw [if_neg h1]
    unfold getStatusCode
    split
    · exact absurd rfl h1
    · rfl
    · rfl

/-- Claim C8: a request whose method matches no operation on the path
is answered 405; a matched request is answered 201 for POST and 200 for
every other method (DELETE included), always with a JSON body. -/
theorem handlePath_status_policy (schemaRaw : Option Doc) (endpoints : List Endpoint)
    (reqMethod : String) (now : Nat) (r : Rng) :
    (findEndpoint reqMethod endpoints = none →
      (handlePath schemaRaw endpoints reqMethod now r).status = 405)
    ∧ (∀ ep, findEndpoint reqMethod endpoints = some ep →
        (handlePath schemaRaw endpoints reqMethod now r).status
          = (if ep.method = "POST" then 201 else 200)
        ∧ ∃ v, (handlePath schemaRaw endpoints reqMethod now r).body = Body.jsonBody v) := by
  constructor
  · intro h
    simp [handlePath, h]
  · intro ep h
    simp only [handlePath, h]
    exact ⟨getStatusCode_eq ep.method, ⟨_, rfl⟩⟩

/-- Witness for C8: a POST matched on /items is answered 201; a DELETE
matching no operation on /items is answered 405. -/
theorem handlePath_status_policy_witness :
    (handlePath none [epPostItems] "POST" 0 rng0).status = 201
    ∧ (handlePath none [epGetItems] "DELETE" 0 rng0).status = 405 := by
  constructor
  · have h := ((handlePath_status_policy none [epPostItems] "POST" 0 rng0).2
      epPostItems (by decide)).1
    rw [h]
    decide
  · exact (handlePath_status_policy none [epGetItems] "DELETE" 0 rng0).1 (by decide)

/-- Claim C9 (amended): a request whose path is known but whose method
matches no operation is answered with the fixed 405 plain-text reply of
http.Error; that reply does not carry the set of allowed methods (see
the counterexample). -/
theorem handlePath_method_not_allowed (schemaRaw : Option Doc) (endpoints : List Endpoint)
    (reqMethod : String) (now : Nat) (r : Rng)
    (h : findEndpoint reqMethod endpoints = none) :
    handlePath schemaRaw endpoints reqMethod now r =
      { status := 405,
        headers := [("Content-Type", "text/plain; charset=utf-8"),
                    ("X-Content-Type-Options", "nosniff")],
        body := Body.textBody "Method not allowed\n" } := by
  simp [handlePath, h]

/-- Witness for C9: a PATCH on a GET-only path receives exactly the
fixed 405 reply. -/
theorem handlePath_method_not_allowed_witness :
    handlePath none [epGetItems] "PATCH" 0 rng0 =
      { status := 405,
        headers := [("Content-Type", "text/plain; charset=utf-8"),
                    ("X-Content-Type-Options", "nosniff")],
        body := Body.textBody "Method not allowed\n" } :=
  handlePath_method_not_allowed none [epGetItems] "PATCH" 0 rng0 (by decide)

/-- Counterexample for C9 as stated: two paths with different allowed
method sets produce identical 405 replies, so the reply cannot carry
the set of allowed methods for the path. -/
theorem handlePath_405_carries_no_methods :
    handlePath none [epGetItems] "DELETE" 0 rng0
      = handlePath none [epPostItems, epPutItems] "DELETE" 0 rng0
    ∧ (handlePath none [epGetItems] "DELETE" 0 rng0).status = 405
    ∧ allowedMethods [epGetItems] ≠ allowedMethods [epPostItems, epPutItems] := by
  refine ⟨rfl, rfl, ?_⟩
  decide
